import Mathlib

/-!
Shallow embedding of `src/src-tauri/src/lib.rs` (the LocalMind Tauri backend).

The file contains three items:
  * `greet` — a pure string-formatting command handler;
  * `set_app_theme` — a command handler that maps a theme string to an
    optional theme variant and fires a best-effort host call, discarding
    its result;
  * `run` — the bootstrap routine that registers plugins and command
    handlers in a fixed straight-line order and then starts the host run
    loop, panicking with a diagnostic message if the run loop fails.
-/

namespace LocalMind

/-- Embedding of `fn greet(name: &str) -> String`:
`format!("Hello, {}! You've been greeted from Rust!", name)` is string
concatenation of the fixed prefix, the name, and the fixed suffix. -/
def greet (name : String) : String :=
  "Hello, " ++ name ++ "! You've been greeted from Rust!"

/-- Embedding of `tauri::Theme` (the two variants used by the source). -/
inductive Theme where
  | Dark
  | Light
deriving DecidableEq, Repr

/-- A window handle. The source treats `tauri::Window` as opaque; only
identity matters for the properties below. -/
structure Window where
  id : Nat
deriving DecidableEq, Repr

/-- The `match theme.as_str() { "dark" => Some(Dark), "light" => Some(Light), _ => None }`
selection inside `set_app_theme`. -/
def theme_enum_of (theme : String) : Option Theme :=
  match theme with
  | "dark" => some Theme.Dark
  | "light" => some Theme.Light
  | _ => none

/-- The host call `window.set_theme(theme_enum)` issued by `set_app_theme`:
which window and which optional theme variant were requested. -/
structure HostThemeCall where
  window : Window
  theme : Option Theme
deriving DecidableEq, Repr

/-- Embedding of `fn set_app_theme(window: tauri::Window, theme: String)`.
The handler computes `theme_enum`, issues the host call, and returns unit.
The pair records the issued host call (the handler's only effect) together
with the handler's return value. -/
def set_app_theme (window : Window) (theme : String) : HostThemeCall × Unit :=
  let theme_enum := theme_enum_of theme
  ({ window := window, theme := theme_enum }, ())

/-- Embedding of `set_app_theme` with the host's fallible `set_theme`
operation made explicit: `let _ = window.set_theme(theme_enum);` evaluates
the host call and discards its `Result`, so the handler returns unit. -/
def set_app_theme_run (host : Window → Option Theme → Except String Unit)
    (window : Window) (theme : String) : Unit :=
  let theme_enum := theme_enum_of theme
  let _ := host window theme_enum
  ()

/-- The capability plugins registered by `run`. -/
inductive Plugin where
  | dialog
  | fs
  | opener
deriving DecidableEq, Repr

/-- The command handlers registered by `run` via `generate_handler!`. -/
inductive Command where
  | greet_cmd
  | set_app_theme_cmd
deriving DecidableEq, Repr

/-- One step of the bootstrap builder chain in `run`. -/
inductive BootStep where
  | plugin (p : Plugin)
  | invoke_handler (cmds : List Command)
  | run_loop
deriving DecidableEq, Repr

/-- Embedding of the builder chain in `pub fn run()`: the straight-line
sequence of registrations, exactly in source order, ending with the host
run loop. -/
def run_steps : List BootStep :=
  [ BootStep.plugin Plugin.dialog
  , BootStep.plugin Plugin.fs
  , BootStep.plugin Plugin.opener
  , BootStep.plugin Plugin.opener
  , BootStep.invoke_handler [Command.greet_cmd, Command.set_app_theme_cmd]
  , BootStep.run_loop ]

/-- The plugins registered by `run`, in order. -/
def registered_plugins : List Plugin :=
  run_steps.filterMap fun s =>
    match s with
    | BootStep.plugin p => some p
    | _ => none

/-- The command handlers registered by `run`, in order. -/
def registered_commands : List Command :=
  (run_steps.filterMap fun s =>
    match s with
    | BootStep.invoke_handler cmds => some cmds
    | _ => none).flatten

/-- Outcome of the bootstrap routine after the host run loop returns. -/
inductive RunOutcome where
  | normal_exit
  | panicked (msg : String)
deriving DecidableEq, Repr

/-- Embedding of `.run(...).expect("error while running tauri application")`:
on run-loop failure the process panics with the diagnostic message; the
failure is neither recovered nor retried. -/
def run_final (runLoopResult : Except String Unit) : RunOutcome :=
  match runLoopResult with
  | Except.ok _ => RunOutcome.normal_exit
  | Except.error e =>
      RunOutcome.panicked ("error while running tauri application: " ++ e)

end LocalMind

namespace LocalMind

/-- C1: for every string input `n`, `greet n` is exactly the concatenation
of the fixed prefix, `n`, and the fixed suffix. -/
theorem greet_eq_concat (n : String) :
    greet n = "Hello, " ++ n ++ "! You've been greeted from Rust!" := rfl

/-- C2: `set_app_theme` selects the theme by exact case-sensitive match:
`"dark"` requests `Dark`, `"light"` requests `Light`, any other string
(including `""` and `"Dark"`) requests `none`; the handler returns unit,
never an error. -/
theorem set_app_theme_selection (w : Window) (t : String) :
    (set_app_theme w t).1.theme =
      (if t = "dark" then some Theme.Dark
       else if t = "light" then some Theme.Light
       else none) ∧
    (set_app_theme w t).2 = () := by
  refine ⟨?_, rfl⟩
  show theme_enum_of t = _
  unfold theme_enum_of
  split
  · simp
  · simp
  next h1 h2 =>
    rw [if_neg h1, if_neg h2]

/-- C3: `set_app_theme` returns unit and never propagates an error,
whatever the host's `set_theme` operation does: its result is discarded,
so the handler's return value is independent of the host behavior. -/
theorem set_app_theme_swallows_host_result
    (host host' : Window → Option Theme → Except String Unit)
    (w : Window) (t : String) :
    set_app_theme_run host w t = () ∧
    set_app_theme_run host w t = set_app_theme_run host' w t := ⟨rfl, rfl⟩

/-- C4: `run` registers exactly the plugins dialog, filesystem, opener,
with opener registered twice; deduplicated, the registration set is
exactly {dialog, fs, opener}. -/
theorem run_plugins_exact :
    registered_plugins =
      [Plugin.dialog, Plugin.fs, Plugin.opener, Plugin.opener] ∧
    registered_plugins.dedup = [Plugin.dialog, Plugin.fs, Plugin.opener] ∧
    registered_plugins.count Plugin.opener = 2 := by
  refine ⟨rfl, by decide, by decide⟩

/-- C5: `run` performs its steps in order — dialog plugin, filesystem
plugin, opener plugin, then registers exactly the two command handlers
greet and set_app_theme as the complete invokable surface, then hands
control to the host run loop — as a fixed straight-line sequence with no
conditional logic. -/
theorem run_steps_in_order :
    run_steps =
      [ BootStep.plugin Plugin.dialog
      , BootStep.plugin Plugin.fs
      , BootStep.plugin Plugin.opener
      , BootStep.plugin Plugin.opener
      , BootStep.invoke_handler [Command.greet_cmd, Command.set_app_theme_cmd]
      , BootStep.run_loop ] ∧
    registered_commands = [Command.greet_cmd, Command.set_app_theme_cmd] ∧
    run_steps.getLast? = some BootStep.run_loop := by
  refine ⟨rfl, rfl, rfl⟩

/-- C6: `greet` is pure and total: every input yields a value, and the
output is determined by the input alone (the same input always produces
the same output). -/
theorem greet_pure_total (n : String) :
    (∃ s : String, greet n = s) ∧ ∀ m : String, m = n → greet m = greet n :=
  ⟨⟨greet n, rfl⟩, fun _ h => by rw [h]⟩

/-- C6 witness. -/
theorem greet_pure_total_witness :
    (∃ s : String, greet "world" = s) ∧
      ∀ m : String, m = "world" → greet m = greet "world" :=
  greet_pure_total "world"

/-- C7: `greet` applied to the empty string is not rejected and returns
the greeting with an empty name spliced in. -/
theorem greet_empty :
    greet "" = "Hello, ! You've been greeted from Rust!" := rfl

/-- C8: if the host run loop fails, the bootstrap terminates the process
with a diagnostic message (a panic carrying the `expect` text); the
failure is fatal, never a normal exit. -/
theorem run_loop_failure_fatal (e : String) :
    run_final (Except.error e) =
      RunOutcome.panicked ("error while running tauri application: " ++ e) ∧
    run_final (Except.error e) ≠ RunOutcome.normal_exit := by
  exact ⟨rfl, by simp [run_final]⟩

/-- C9: the theme variant chosen by `set_app_theme` depends only on the
theme string, not on the window handle: two invocations with the same
string and different windows select the same theme value. -/
theorem set_app_theme_window_independent (w1 w2 : Window) (t : String) :
    (set_app_theme w1 t).1.theme = (set_app_theme w2 t).1.theme := rfl

/-- C10: `greet` is injective: distinct inputs give distinct outputs,
because the name appears verbatim between the fixed prefix and suffix. -/
theorem greet_injective (n1 n2 : String) (h : greet n1 = greet n2) :
    n1 = n2 := by
  unfold greet at h
  have hd := congrArg String.data h
  simp only [String.data_append, List.append_assoc] at hd
  have h1 := List.append_cancel_left hd
  have h2 := List.append_cancel_right h1
  exact String.ext h2

/-- C10 witness. -/
theorem greet_injective_witness : "alice" = "alice" :=
  greet_injective "alice" "alice" rfl

end LocalMind
